import Mathlib

/-!
Verification of the gateway service (FastAPI gateway in `app/`).

Shallow embedding of the handlers in `app/main.py`, `app/users.py` and
`app/database.py`.  Python dictionaries whose keys matter are modelled as
structures with `Option` fields; Python truthiness of the relevant values is
modelled explicitly; unhandled Python exceptions are modelled as an explicit
outcome constructor; the outbound calls a handler performs are returned as an
explicit trace list.
-/

namespace App

/-- An unhandled Python exception, as raised by dictionary subscription:
`None[k]` raises `TypeError`, `d[k]` with `k` missing raises `KeyError k`. -/
inductive PyExc where
  | typeError
  | keyError (key : String)
deriving DecidableEq

/-- Model of the backend error dictionary appearing under the `"error"` key of
a sign-up result.  `message` is the value of its `"message"` key when present;
`hasOtherKeys` records whether the dictionary has further keys, which matters
only for Python truthiness (a `dict` is truthy iff it is non-empty). -/
structure PyErrorDict where
  message : Option String
  hasOtherKeys : Bool
deriving DecidableEq

/-- Python truthiness of an optional error dictionary exactly as the code
tests it (`if error:`): `None` is falsy, a dictionary is truthy iff
non-empty. -/
def errorTruthy : Option PyErrorDict → Bool
  | none => false
  | some e => e.message.isSome || e.hasOtherKeys

/-- Model of the backend user dictionary appearing under the `"user"` key of a
sign-up result; both fields may be absent. -/
structure PyUserDict where
  id : Option String
  email : Option String
deriving DecidableEq

/-- Python result of evaluating an expression that may raise. -/
inductive PyResult (α : Type) where
  | ok (value : α)
  | exc (e : PyExc)
deriving DecidableEq

/-- `user_data["id"]` / `user_data["email"]` where `user_data` is
`result.get("user")`: subscripting `None` raises `TypeError`, a missing key
raises `KeyError`. -/
def getUserField (user_data : Option PyUserDict) (f : PyUserDict → Option String)
    (key : String) : PyResult String :=
  match user_data with
  | none => .exc .typeError
  | some u =>
    match f u with
    | none => .exc (.keyError key)
    | some v => .ok v

/-- The dictionary returned by `supabase.auth.sign_up`, per the backend
contract `{user: {id, email}} | {error: {message}}`; either key may be
absent. -/
structure SignUpResult where
  error : Option PyErrorDict
  user : Option PyUserDict
deriving DecidableEq

/-- An error object on a tabular-surface result (`result.error`); attribute
access `result.error.message` always succeeds on it. -/
structure QueryError where
  message : String
deriving DecidableEq

/-- Result of `table("users").insert(row).execute()`; the create-user handler
discards it, so only the possible error component is modelled. -/
structure ExecuteResult where
  error : Option QueryError
deriving DecidableEq

/-- A row of the backend's `users` table; `extra` models any further columns
so that "returns the row's data verbatim" is about the whole row. -/
structure Row where
  id : String
  email : String
  extra : List (String × String)
deriving DecidableEq

/-- Result of `table("users").select("*").eq("id", id).single().execute()`:
a `{data, error}` pair; `data` is `None` when the query failed. -/
structure QueryResult where
  data : Option Row
  error : Option QueryError
deriving DecidableEq

/-- The external backend surfaces consumed by the handlers, as oracle
functions: `auth.sign_up`, `table("users").insert(...).execute()` and
`table("users").select("*").eq("id", ...).single().execute()`. -/
structure Backend where
  sign_up : String → String → SignUpResult
  insert_users : String → String → ExecuteResult
  select_user : String → QueryResult

/-- One outbound call from a handler to the backend (the observable trace). -/
inductive BackendCall where
  | signUp (email password : String)
  | insertUsers (id email : String)
  | selectUsers (user_id : String)
deriving DecidableEq

/-- Outcome of the create-user handler: `created` is the route's 201 response
`{id, email}`, `httpError` a raised `HTTPException`, `unhandled` an exception
the handler does not catch (surfaced by the framework as a 500). -/
inductive CreateUserResponse where
  | created (id email : String)
  | httpError (status : Nat) (detail : String)
  | unhandled (e : PyExc)
deriving DecidableEq

/-- HTTP status code the framework sends for each create-user outcome. -/
def CreateUserResponse.statusCode : CreateUserResponse → Nat
  | .created _ _ => 201
  | .httpError s _ => s
  | .unhandled _ => 500

/-- `UserCreate` request schema: `email` any string, `password` with
`min_length=8` (validated by the framework before the handler runs). -/
structure UserCreate where
  email : String
  password : String
deriving DecidableEq

/-- Fallback detail used by `error.get("message", ...)` in `create_user`. -/
def fallbackSignUpMsg : String := "An unknown error occurred during sign up"

/-- The `create_user` handler body (`app/users.py`), assuming validation has
passed.  Returns the trace of backend calls together with the outcome.
Mirrors the source: sign up; if the error value is truthy raise 400 with the
error's message or the fallback; otherwise read `result.get("user")`,
subscript it to build the insert row (crashing like Python on a missing
user or key), run the insert discarding its result, and return
`{id, email}`. -/
def create_user (b : Backend) (user : UserCreate) :
    List BackendCall × CreateUserResponse :=
  let result := b.sign_up user.email user.password
  let calls := [BackendCall.signUp user.email user.password]
  if errorTruthy result.error then
    (calls,
      .httpError 400
        (((result.error.getD ⟨none, false⟩).message).getD fallbackSignUpMsg))
  else
    let user_data := result.user
    match getUserField user_data PyUserDict.id "id" with
    | .exc e => (calls, .unhandled e)
    | .ok uid =>
      match getUserField user_data PyUserDict.email "email" with
      | .exc e => (calls, .unhandled e)
      | .ok uemail =>
        let _insert_result := b.insert_users uid uemail
        (calls ++ [BackendCall.insertUsers uid uemail], .created uid uemail)

/-- A raw request payload for `POST /users/` before validation. -/
structure UserCreatePayload where
  email : String
  password : String
deriving DecidableEq

/-- The full `POST /users/` endpoint: the framework validates the payload
against `UserCreate` (`password` has `min_length=8`) and rejects invalid
payloads with a 422 validation client error before the handler — and hence
any backend call — runs. -/
def create_user_endpoint (b : Backend) (p : UserCreatePayload) :
    List BackendCall × CreateUserResponse :=
  if p.password.length < 8 then
    ([], .httpError 422 "String should have at least 8 characters")
  else
    create_user b { email := p.email, password := p.password }

/-- Outcome of the get-user handler: the 200 response carrying
`result.data` verbatim, or a raised `HTTPException`. -/
inductive GetUserResponse where
  | ok (data : Option Row)
  | httpError (status : Nat) (detail : String)
deriving DecidableEq

/-- The `get_user` handler (`app/users.py`): run the single-row query; if
`result.error` is truthy (a present error object) raise 404 with
`result.error.message`; otherwise return `result.data`. -/
def get_user (b : Backend) (user_id : String) :
    List BackendCall × GetUserResponse :=
  let result := b.select_user user_id
  ([BackendCall.selectUsers user_id],
    match result.error with
    | some e => .httpError 404 e.message
    | none => .ok result.data)

/-- Modelled from the spec: the external backend's tabular single-row query
(`select("*").eq("id", id).single().execute() -> {data, error}`, §6).  The
backend itself is outside this repository; per the contract and the stated
test property, a query matching no unique row reports an error and a unique
match returns that row as `data`. -/
def select_single_users (table : List Row) (user_id : String) : QueryResult :=
  match table.filter (fun r => r.id == user_id) with
  | [r] => { data := some r, error := none }
  | _ => { data := none, error := some { message := "Row not found" } }

/-- A backend whose `users` table is the given list of rows, used to settle
the fetch-user claim end to end. -/
def backend_of_table (table : List Row) : Backend where
  sign_up := fun _ _ => { error := none, user := none }
  insert_users := fun _ _ => { error := none }
  select_user := fun user_id => select_single_users table user_id

/-- A downstream HTTP response: status code and (already-parsed) JSON body.
The body type is abstract because `proxy_ping` never inspects it. -/
structure DownstreamResponse (α : Type) where
  status : Nat
  body : α
deriving DecidableEq

/-- `httpx` success predicate (`is_success`): a 2xx status code.
`raise_for_status` raises `HTTPStatusError` for every other status. -/
def http_is_success (status : Nat) : Bool :=
  200 ≤ status && status < 300

/-- The fixed downstream address `proxy_ping` forwards to. -/
def serviceURL : String := "http://service:8000/ping"

/-- Outcome of the `proxy_ping` handler body: the downstream body returned
unmodified, or the `HTTPStatusError` raised by `raise_for_status`. -/
inductive ProxyResult (α : Type) where
  | ok (body : α)
  | statusError (status : Nat)
deriving DecidableEq

/-- The `GET /service/ping` handler (`app/main.py`): open a fresh client,
issue one GET to the fixed downstream address, `raise_for_status`, and return
the JSON body.  The downstream is an oracle from URL to response; the first
component is the trace of outbound requests issued. -/
def proxy_ping {α : Type} (downstream : String → DownstreamResponse α) :
    List String × ProxyResult α :=
  let response := downstream serviceURL
  ([serviceURL],
    if http_is_success response.status then .ok response.body
    else .statusError response.status)

/-- An HTTP response of the gateway for the proxy route: status code and the
downstream body when one is forwarded. -/
structure GatewayResponse (α : Type) where
  status : Nat
  body : Option α
deriving DecidableEq

/-- The full `GET /service/ping` endpoint: the framework converts the
unhandled `HTTPStatusError` from `raise_for_status` into a 500 Internal
Server Error with no downstream body. -/
def proxy_ping_endpoint {α : Type} (downstream : String → DownstreamResponse α) :
    List String × GatewayResponse α :=
  let (reqs, result) := proxy_ping downstream
  (reqs,
    match result with
    | .ok body => { status := 200, body := some body }
    | .statusError _ => { status := 500, body := none })

/-- `TextData` request schema of `POST /process-text`. -/
structure TextData where
  text : String
  timestamp : String
  source : String
deriving DecidableEq

/-- The success response body of `POST /process-text`.  `processed_at` is the
`datetime.now()` reading taken while building the response, modelled as a
numeric timestamp. -/
structure ProcessTextResponse where
  status : String
  message : String
  received_text : String
  processed_at : Nat
deriving DecidableEq

/-- The separator line printed by `process_text` (`"=" * 50`). -/
def sepLine : String := String.mk (List.replicate 50 '=')

/-- The `POST /process-text` handler (`app/main.py`).  `t_log` and `t_resp`
are the two successive `datetime.now()` readings (one in the log block, one
while building the response).  Returns the printed log lines and the
response body. -/
def process_text (data : TextData) (t_log t_resp : Nat) :
    List String × ProcessTextResponse :=
  ([sepLine,
    "📝 FRONTEND에서 전송된 데이터:",
    "📄 텍스트: " ++ data.text,
    "⏰ 타임스탬프: " ++ data.timestamp,
    "🔗 소스: " ++ data.source,
    "🕐 처리 시간: " ++ toString t_log,
    sepLine],
   { status := "success",
     message := "데이터가 성공적으로 처리되었습니다",
     received_text := data.text,
     processed_at := t_resp })

/-- The process environment as read by `get_supabase_client`: `os.getenv`
returns `None` for an unset variable. -/
structure Env where
  supabase_url : Option String
  supabase_anon_key : Option String
deriving DecidableEq

/-- Python falsiness of an `os.getenv` result, as tested by
`if not url or not key`: `None` and the empty string are falsy. -/
def envFalsy : Option String → Bool
  | none => true
  | some s => s == ""

/-- Message of the `RuntimeError` raised on missing configuration. -/
def configErrMsg : String :=
  "SUPABASE_URL and SUPABASE_ANON_KEY must be set in the environment."

/-- Message of the `RuntimeError` raised when `supabase` cannot be imported. -/
def depErrMsg : String :=
  "supabase-py is required for database operations. Please install it via 'pip install supabase-py'."

/-- A backend client handle; its `Nat` identity distinguishes distinct
`create_client` results. -/
abbrev Handle : Type := Nat

/-- The body of `get_supabase_client` (`app/database.py`), without the
`lru_cache` layer: read both environment values, raise the configuration
`RuntimeError` if either is falsy, then attempt the `supabase` import,
raising the dependency `RuntimeError` on failure, and otherwise build a
fresh client.  `importOk` models whether the `supabase` package is
importable; `fresh` is the identity `create_client` would assign. -/
def get_supabase_client_body (env : Env) (importOk : Bool) (fresh : Handle) :
    Except String Handle :=
  if envFalsy env.supabase_url || envFalsy env.supabase_anon_key then
    .error configErrMsg
  else if !importOk then
    .error depErrMsg
  else
    .ok fresh

/-- Per-process state of the `lru_cache` on `get_supabase_client` plus a
fresh-identity counter for new clients. -/
structure ProcState where
  cache : Option Handle
  nextHandle : Handle
deriving DecidableEq

/-- `get_supabase_client` with its `lru_cache()` decorator: on a cache hit
return the cached handle unchanged; otherwise run the body, caching the
handle on success (`lru_cache` does not cache raised exceptions). -/
def get_supabase_client (env : Env) (importOk : Bool) (st : ProcState) :
    ProcState × Except String Handle :=
  match st.cache with
  | some h => (st, .ok h)
  | none =>
    match get_supabase_client_body env importOk st.nextHandle with
    | .error e => (st, .error e)
    | .ok h => ({ cache := some h, nextHandle := st.nextHandle + 1 }, .ok h)

/-- `n + 1` successive invocations of `get_supabase_client` from a given
state, returning the final state and the last call's result. -/
def repeat_get_supabase_client (env : Env) (importOk : Bool) :
    Nat → ProcState → ProcState × Except String Handle
  | 0, st => get_supabase_client env importOk st
  | n + 1, st =>
    repeat_get_supabase_client env importOk n (get_supabase_client env importOk st).1

/-- A backend whose sign-up reports an error with the message
`"User already exists"`. -/
def errBackend : Backend where
  sign_up := fun _ _ =>
    { error := some { message := some "User already exists", hasOtherKeys := false },
      user := none }
  insert_users := fun _ _ => { error := none }
  select_user := fun _ => { data := none, error := none }

/-- A backend whose sign-up succeeds with user `{id := "u1", email := "a@b.c"}`
and whose table insert succeeds. -/
def okBackend : Backend where
  sign_up := fun _ _ =>
    { error := none, user := some { id := some "u1", email := some "a@b.c" } }
  insert_users := fun _ _ => { error := none }
  select_user := fun _ => { data := none, error := none }

/-- Like `okBackend`, but the `users`-table insert reports an error. -/
def insertFailBackend : Backend where
  sign_up := fun _ _ =>
    { error := none, user := some { id := some "u1", email := some "a@b.c" } }
  insert_users := fun _ _ => { error := some { message := "insert failed" } }
  select_user := fun _ => { data := none, error := none }

/-- A backend whose sign-up result carries neither an `error` nor a `user`
entry. -/
def noUserBackend : Backend where
  sign_up := fun _ _ => { error := none, user := none }
  insert_users := fun _ _ => { error := none }
  select_user := fun _ => { data := none, error := none }

/-- A backend whose sign-up result has a `user` entry lacking the `"id"`
key. -/
def missingIdBackend : Backend where
  sign_up := fun _ _ =>
    { error := none, user := some { id := none, email := some "a@b.c" } }
  insert_users := fun _ _ => { error := none }
  select_user := fun _ => { data := none, error := none }

/-- A backend whose sign-up result carries an empty (hence falsy) error
dictionary and no `user` entry. -/
def emptyErrorBackend : Backend where
  sign_up := fun _ _ =>
    { error := some { message := none, hasOtherKeys := false }, user := none }
  insert_users := fun _ _ => { error := none }
  select_user := fun _ => { data := none, error := none }

/-- C1: every inbound `GET /service/ping` issues exactly one outbound GET to
the fixed downstream address; on a 2xx downstream status the endpoint returns
status 200 with the downstream body unmodified; on any non-success status the
`raise_for_status` failure propagates as a 500 server error with no retry (the
trace still holds exactly one request) and no fallback or partial body. -/
theorem proxy_ping_spec (α : Type) (downstream : String → DownstreamResponse α) :
    (proxy_ping_endpoint downstream).1 = [serviceURL] ∧
    (proxy_ping_endpoint downstream).2 =
      (if http_is_success (downstream serviceURL).status then
        { status := 200, body := some (downstream serviceURL).body }
      else { status := 500, body := none }) := by
  refine ⟨rfl, ?_⟩
  cases hs : http_is_success (downstream serviceURL).status <;>
    simp [proxy_ping_endpoint, proxy_ping, hs]

/-- C8: for every well-formed `{text, timestamp, source}` payload, the
`POST /process-text` response has `status = "success"`, `received_text`
equal to the input text, and `processed_at` equal to a clock reading taken
after arrival — hence no earlier than the arrival time, given that the two
`datetime.now()` readings are no earlier than arrival and in order. -/
theorem process_text_spec (data : TextData) (arrival t_log t_resp : Nat)
    (h1 : arrival ≤ t_log) (h2 : t_log ≤ t_resp) :
    (process_text data t_log t_resp).2.status = "success" ∧
    (process_text data t_log t_resp).2.received_text = data.text ∧
    arrival ≤ (process_text data t_log t_resp).2.processed_at :=
  ⟨rfl, rfl, le_trans h1 h2⟩

/-- Witness for `process_text_spec` at a concrete payload and clock. -/
theorem process_text_spec_witness :
    (process_text ⟨"hello", "2024-01-01", "web"⟩ 5 7).2.status = "success" ∧
    (process_text ⟨"hello", "2024-01-01", "web"⟩ 5 7).2.received_text = "hello" ∧
    4 ≤ (process_text ⟨"hello", "2024-01-01", "web"⟩ 5 7).2.processed_at :=
  process_text_spec ⟨"hello", "2024-01-01", "web"⟩ 4 5 7 (by decide) (by decide)

/-- C6: if either environment value is absent or empty, client construction
fails with the configuration error and no handle is produced; if both are set
but the backend library cannot be imported, it fails with the dependency
error; and the two error messages are distinct. -/
theorem get_supabase_client_failure_modes (env : Env) (importOk : Bool)
    (fresh : Handle) :
    ((envFalsy env.supabase_url || envFalsy env.supabase_anon_key) = true →
      get_supabase_client_body env importOk fresh = .error configErrMsg) ∧
    ((envFalsy env.supabase_url || envFalsy env.supabase_anon_key) = false →
      importOk = false →
      get_supabase_client_body env importOk fresh = .error depErrMsg) ∧
    configErrMsg ≠ depErrMsg := by
  refine ⟨fun hmiss => ?_, fun hset hdep => ?_, by decide⟩
  · simp [get_supabase_client_body, hmiss]
  · simp [get_supabase_client_body, hset, hdep]

/-- Witness for `get_supabase_client_failure_modes`: a missing URL yields the
configuration error, a failed import with full configuration yields the
dependency error, and the messages differ. -/
theorem get_supabase_client_failure_modes_witness :
    get_supabase_client_body ⟨none, some "k"⟩ true 0 = .error configErrMsg ∧
    get_supabase_client_body ⟨some "u", some "k"⟩ false 0 = .error depErrMsg ∧
    configErrMsg ≠ depErrMsg :=
  ⟨(get_supabase_client_failure_modes ⟨none, some "k"⟩ true 0).1 (by decide),
   (get_supabase_client_failure_modes ⟨some "u", some "k"⟩ false 0).2.1
     (by decide) rfl,
   (get_supabase_client_failure_modes ⟨none, some "k"⟩ true 0).2.2⟩

/-- On a populated cache, `get_supabase_client` returns the cached handle and
leaves the state unchanged. -/
theorem get_supabase_client_cache_hit (env : Env) (importOk : Bool)
    (st : ProcState) (h : Handle) (hc : st.cache = some h) :
    get_supabase_client env importOk st = (st, .ok h) := by
  simp [get_supabase_client, hc]

/-- C7: once a call to `get_supabase_client` has succeeded with handle `h`,
every number of further repeated invocations returns the identical handle `h`
and leaves the process state (cache and fresh-handle counter) unchanged:
construction is idempotent and at most one handle exists per process. -/
theorem get_supabase_client_idempotent (env : Env) (importOk : Bool)
    (st : ProcState) (h : Handle)
    (hfirst : (get_supabase_client env importOk st).2 = .ok h) :
    ∀ n : Nat,
      repeat_get_supabase_client env importOk n
          (get_supabase_client env importOk st).1 =
        ((get_supabase_client env importOk st).1, .ok h) := by
  have hcache : (get_supabase_client env importOk st).1.cache = some h := by
    rcases hc : st.cache with _ | h0
    · rcases hb : get_supabase_client_body env importOk st.nextHandle with e | h1
      · simp [get_supabase_client, hc, hb] at hfirst
      · simp [get_supabase_client, hc, hb] at hfirst ⊢
        exact hfirst
    · simp [get_supabase_client, hc] at hfirst ⊢
      exact hfirst
  intro n
  induction n with
  | zero =>
    simpa [repeat_get_supabase_client] using
      get_supabase_client_cache_hit env importOk
        (get_supabase_client env importOk st).1 h hcache
  | succ n ih =>
    have hfix := get_supabase_client_cache_hit env importOk
      (get_supabase_client env importOk st).1 h hcache
    simp only [repeat_get_supabase_client, hfix]
    exact ih

/-- Witness for `get_supabase_client_idempotent`: from an empty cache with
full configuration, the first call constructs handle `0` and two further
repetitions return the same handle with the state unchanged. -/
theorem get_supabase_client_idempotent_witness :
    repeat_get_supabase_client ⟨some "u", some "k"⟩ true 1
        (get_supabase_client ⟨some "u", some "k"⟩ true ⟨none, 0⟩).1 =
      ((get_supabase_client ⟨some "u", some "k"⟩ true ⟨none, 0⟩).1, .ok 0) :=
  get_supabase_client_idempotent ⟨some "u", some "k"⟩ true ⟨none, 0⟩ 0 rfl 1

/-- C2: when the backend sign-up result carries an error (a present,
non-empty error object), `create_user` raises HTTP 400 whose detail is the
error's message verbatim, or the generic fallback when the error carries no
message, and the backend-call trace holds only the sign-up — no row is
inserted into the `users` table. -/
theorem create_user_error_spec (b : Backend) (u : UserCreate)
    (err : PyErrorDict)
    (herr : (b.sign_up u.email u.password).error = some err)
    (htruthy : errorTruthy (some err) = true) :
    create_user b u =
      ([BackendCall.signUp u.email u.password],
       .httpError 400 (err.message.getD fallbackSignUpMsg)) := by
  simp [create_user, herr, htruthy]

/-- Witness for `create_user_error_spec`: a backend reporting
`{error: {message: "User already exists"}}` yields 400 with that detail and
no insert call. -/
theorem create_user_error_spec_witness :
    create_user errBackend ⟨"a@b.c", "password1"⟩ =
      ([BackendCall.signUp "a@b.c" "password1"],
       .httpError 400 "User already exists") :=
  create_user_error_spec errBackend ⟨"a@b.c", "password1"⟩
    ⟨some "User already exists", false⟩ rfl rfl

/-- C3: when the backend sign-up succeeds with a user record `{id, email}`,
`create_user` performs the sign-up, then inserts the row `{id, email}` into
the `users` table, then returns `{id, email}`, and the route's response
status is 201. -/
theorem create_user_success_spec (b : Backend) (u : UserCreate)
    (uid uemail : String)
    (hres : b.sign_up u.email u.password =
      { error := none, user := some { id := some uid, email := some uemail } }) :
    create_user b u =
      ([BackendCall.signUp u.email u.password,
        BackendCall.insertUsers uid uemail],
       .created uid uemail) ∧
    (create_user b u).2.statusCode = 201 := by
  constructor
  · simp [create_user, hres, errorTruthy, getUserField]
  · simp [create_user, hres, errorTruthy, getUserField, CreateUserResponse.statusCode]

/-- Witness for `create_user_success_spec` on a backend assigning id `"u1"`
to email `"a@b.c"`. -/
theorem create_user_success_spec_witness :
    (create_user okBackend ⟨"a@b.c", "password1"⟩ =
      ([BackendCall.signUp "a@b.c" "password1",
        BackendCall.insertUsers "u1" "a@b.c"],
       .created "u1" "a@b.c") ∧
    (create_user okBackend ⟨"a@b.c", "password1"⟩).2.statusCode = 201) :=
  create_user_success_spec okBackend ⟨"a@b.c", "password1"⟩ "u1" "a@b.c" rfl

/-- C9: after a successful sign-up, the result of the `users`-table insert is
never inspected: even when that result carries an error, `create_user` still
returns 201 with `{id, email}` — the two-step flow is not atomic from the
caller's perspective. -/
theorem create_user_insert_failure_ignored (b : Backend) (u : UserCreate)
    (uid uemail : String) (qerr : QueryError)
    (hres : b.sign_up u.email u.password =
      { error := none, user := some { id := some uid, email := some uemail } })
    (hins : b.insert_users uid uemail = { error := some qerr }) :
    (create_user b u).2 = .created uid uemail ∧
    (create_user b u).2.statusCode = 201 := by
  constructor
  · simp [create_user, hres, errorTruthy, getUserField]
  · simp [create_user, hres, errorTruthy, getUserField, CreateUserResponse.statusCode]

/-- Witness for `create_user_insert_failure_ignored`: a backend whose insert
reports `"insert failed"` still produces the 201 `{id, email}` response. -/
theorem create_user_insert_failure_ignored_witness :
    ((create_user insertFailBackend ⟨"a@b.c", "password1"⟩).2 =
        .created "u1" "a@b.c" ∧
    (create_user insertFailBackend ⟨"a@b.c", "password1"⟩).2.statusCode = 201) :=
  create_user_insert_failure_ignored insertFailBackend ⟨"a@b.c", "password1"⟩
    "u1" "a@b.c" ⟨"insert failed"⟩ rfl rfl

/-- C10: there exist backend sign-up results under which `create_user`
produces neither the 400 mapping nor a success response but crashes on the
missing user record: with no `user` entry the subscription of `None` raises
`TypeError`; with a `user` entry lacking `"id"` it raises `KeyError "id"`;
and an empty (falsy) error dictionary also falls through to the crash.  In
each case the framework surfaces the unhandled exception as a 500, and no
insert call is made. -/
theorem create_user_missing_user_crash :
    (create_user noUserBackend ⟨"a@b.c", "password1"⟩ =
      ([BackendCall.signUp "a@b.c" "password1"], .unhandled .typeError)) ∧
    (create_user missingIdBackend ⟨"a@b.c", "password1"⟩ =
      ([BackendCall.signUp "a@b.c" "password1"],
       .unhandled (.keyError "id"))) ∧
    (create_user emptyErrorBackend ⟨"a@b.c", "password1"⟩ =
      ([BackendCall.signUp "a@b.c" "password1"], .unhandled .typeError)) ∧
    (create_user noUserBackend ⟨"a@b.c", "password1"⟩).2.statusCode = 500 := by
  refine ⟨rfl, rfl, rfl, rfl⟩

/-- C5: a `POST /users/` payload whose password is shorter than 8 characters
is rejected by validation with a client-error (4xx) response before the
handler runs: the backend-call trace is empty — neither sign-up nor table
insert happens. -/
theorem create_user_short_password (b : Backend) (p : UserCreatePayload)
    (hshort : p.password.length < 8) :
    (create_user_endpoint b p).1 = [] ∧
    400 ≤ (create_user_endpoint b p).2.statusCode ∧
    (create_user_endpoint b p).2.statusCode < 500 := by
  simp [create_user_endpoint, hshort, CreateUserResponse.statusCode]

/-- Witness for `create_user_short_password` at a 5-character password. -/
theorem create_user_short_password_witness :
    (create_user_endpoint okBackend ⟨"a@b.c", "short"⟩).1 = [] ∧
    400 ≤ (create_user_endpoint okBackend ⟨"a@b.c", "short"⟩).2.statusCode ∧
    (create_user_endpoint okBackend ⟨"a@b.c", "short"⟩).2.statusCode < 500 :=
  create_user_short_password okBackend ⟨"a@b.c", "short"⟩ (by decide)

/-- C4: for the fetch-user operation: against the spec-modelled single-row
backend query, if no row of the `users` table matches the requested id the
response is HTTP 404 carrying the backend's error message, and if exactly one
row matches, the response is that row's data verbatim; and against any
backend, whenever the query result reports an error, the response is HTTP
404 carrying that error's message. -/
theorem get_user_spec (table : List Row) (user_id : String) :
    (table.filter (fun r => r.id == user_id) = [] →
      (get_user (backend_of_table table) user_id).2 =
        .httpError 404 "Row not found") ∧
    (∀ r : Row, table.filter (fun t => t.id == user_id) = [r] →
      (get_user (backend_of_table table) user_id).2 = .ok (some r)) ∧
    (∀ (b : Backend) (e : QueryError), (b.select_user user_id).error = some e →
      (get_user b user_id).2 = .httpError 404 e.message) := by
  refine ⟨fun hnone => ?_, fun r hone => ?_, fun b e herr => ?_⟩
  · simp [get_user, backend_of_table, select_single_users, hnone]
  · simp [get_user, backend_of_table, select_single_users, hone]
  · simp [get_user, herr]

/-- Witness for `get_user_spec` on a one-row table: the id `"nonexistent"`
yields 404, the id `"u1"` yields its row, and a backend reporting an error
yields 404 with that message. -/
theorem get_user_spec_witness :
    ((get_user (backend_of_table [⟨"u1", "a@b.c", []⟩]) "nonexistent").2 =
      .httpError 404 "Row not found") ∧
    ((get_user (backend_of_table [⟨"u1", "a@b.c", []⟩]) "u1").2 =
      .ok (some ⟨"u1", "a@b.c", []⟩)) :=
  ⟨(get_user_spec [⟨"u1", "a@b.c", []⟩] "nonexistent").1 (by decide),
   (get_user_spec [⟨"u1", "a@b.c", []⟩] "u1").2.1 ⟨"u1", "a@b.c", []⟩ (by decide)⟩

end App
